import Mathlib

/-!
Verification of the authentication and access-control core of a
role-based project-management web application.

The embedded code comes from the repository's `lib/auth.ts` (NextAuth
credentials provider: account lockout, in-memory rate limiting, the
`authorize` pipeline, session configuration) and `lib/auth-utils.ts`
(role hierarchy and capability table).  Times are modelled as `Nat`
milliseconds since the epoch, matching JavaScript `Date.now()`.

Storage model: every database operation in the embedded code reads or
writes the single user row addressed by the (already normalized) email
of the current request, so the persistent state relevant to one
`authorize` call is `Option UserRec` — the row stored under that email,
or `none` when no such user exists.  Likewise the rate-limit map is
only ever consulted at the single key `login_${ip}` derived from the
request source, so its relevant state is `Option RateEntry`.
-/

/-- System roles, from the Prisma `UserRole` enum
(`ROOT_ADMIN | ADMIN | EMPLOYEE`). -/
inductive UserRole : Type
  | ROOT_ADMIN
  | ADMIN
  | EMPLOYEE
deriving DecidableEq, Repr

/-- The user row as selected by the authentication code:
`id`, `email`, `passwordHash`, `name`, `role`, `failedLoginAttempts`,
`lockedUntil`, `lastLogin`. -/
structure UserRec : Type where
  id : String
  email : String
  passwordHash : String
  name : String
  role : UserRole
  failedLoginAttempts : Nat
  lockedUntil : Option Nat
  lastLogin : Option Nat
deriving DecidableEq, Repr

/-- `ACCOUNT_LOCKOUT.MAX_ATTEMPTS` from `lib/auth.ts`. -/
def ACCOUNT_LOCKOUT_MAX_ATTEMPTS : Nat := 10

/-- `ACCOUNT_LOCKOUT.LOCKOUT_DURATION_HOURS` from `lib/auth.ts`. -/
def ACCOUNT_LOCKOUT_LOCKOUT_DURATION_HOURS : Nat := 1

/-- `ACCOUNT_LOCKOUT.RATE_LIMIT_WINDOW_MINUTES` from `lib/auth.ts`. -/
def ACCOUNT_LOCKOUT_RATE_LIMIT_WINDOW_MINUTES : Nat := 5

/-- `ACCOUNT_LOCKOUT.RATE_LIMIT_MAX_ATTEMPTS` from `lib/auth.ts`. -/
def ACCOUNT_LOCKOUT_RATE_LIMIT_MAX_ATTEMPTS : Nat := 5

/-- `isAccountLocked(email)` from `lib/auth.ts`, with the row for that
email passed in and the (possibly rewritten) row passed back out.
Returns `false` when the user is absent; returns `true` when
`lockedUntil` is set and `now` is strictly before it; when
`lockedUntil` is set but already reached, writes back a row with
`failedLoginAttempts = 0` and `lockedUntil = null` and returns
`false`. -/
def isAccountLocked (now : Nat) (user : Option UserRec) :
    Bool × Option UserRec :=
  match user with
  | none => (false, none)
  | some u =>
    match u.lockedUntil with
    | some t =>
      if now < t then
        (true, some u)
      else
        (false, some { u with failedLoginAttempts := 0, lockedUntil := none })
    | none => (false, some u)

/-- `handleFailedLogin(email)` from `lib/auth.ts`: a no-op when no row
exists for the email; otherwise increments `failedLoginAttempts` and,
when the new count reaches `MAX_ATTEMPTS`, sets `lockedUntil` to
`Date.now() + LOCKOUT_DURATION_HOURS * 60 * 60 * 1000`, else writes
`lockedUntil = null`. -/
def handleFailedLogin (now : Nat) (user : Option UserRec) : Option UserRec :=
  match user with
  | none => none
  | some u =>
    let newFailedAttempts := u.failedLoginAttempts + 1
    let shouldLockAccount :=
      ACCOUNT_LOCKOUT_MAX_ATTEMPTS ≤ newFailedAttempts
    some { u with
      failedLoginAttempts := newFailedAttempts,
      lockedUntil :=
        if shouldLockAccount then
          some (now + ACCOUNT_LOCKOUT_LOCKOUT_DURATION_HOURS * 60 * 60 * 1000)
        else
          none }

/-- `handleSuccessfulLogin(email)` from `lib/auth.ts`: resets
`failedLoginAttempts` to 0, clears `lockedUntil`, stamps `lastLogin`. -/
def handleSuccessfulLogin (now : Nat) (user : Option UserRec) :
    Option UserRec :=
  user.map fun u =>
    { u with failedLoginAttempts := 0, lockedUntil := none,
             lastLogin := some now }

/-- One value of the `rateLimitStore` map from `lib/auth.ts`:
`{ attempts: number; resetTime: number }`. -/
structure RateEntry : Type where
  attempts : Nat
  resetTime : Nat
deriving DecidableEq, Repr

/-- `checkRateLimit(ip)` from `lib/auth.ts`, with the store entry at
key `login_${ip}` passed in and the updated entry passed back out.
If no entry exists or `now > resetTime`, installs
`{attempts: 1, resetTime: now + RATE_LIMIT_WINDOW_MINUTES * 60 * 1000}`
and admits; otherwise denies without mutation when
`attempts >= RATE_LIMIT_MAX_ATTEMPTS`, else increments and admits. -/
def checkRateLimit (now : Nat) (current : Option RateEntry) :
    Bool × Option RateEntry :=
  match current with
  | none =>
    (true, some ⟨1, now + ACCOUNT_LOCKOUT_RATE_LIMIT_WINDOW_MINUTES * 60 * 1000⟩)
  | some c =>
    if c.resetTime < now then
      (true, some ⟨1, now + ACCOUNT_LOCKOUT_RATE_LIMIT_WINDOW_MINUTES * 60 * 1000⟩)
    else if ACCOUNT_LOCKOUT_RATE_LIMIT_MAX_ATTEMPTS ≤ c.attempts then
      (false, some c)
    else
      (true, some ⟨c.attempts + 1, c.resetTime⟩)

/-- The `LoginSchema.safeParse` success test from `lib/validation/auth.ts`:
email non-empty and of valid email shape, password non-empty and at most
128 characters.  The zod email format test is abstracted as the
parameter `emailOk`; the length checks are explicit. -/
def loginSchemaSuccess (emailOk : String → Bool) (email password : String) :
    Bool :=
  (decide (1 ≤ email.length) && emailOk email) &&
    (decide (1 ≤ password.length) && decide (password.length ≤ 128))

/-- The object the `authorize` callback returns on success:
`{ id, email, name, role }`. -/
structure SessionUser : Type where
  id : String
  email : String
  name : String
  role : UserRole
deriving DecidableEq, Repr

/-- Which exit of the `authorize` callback in `lib/auth.ts` a call took.
`storeThrown` is the catch branch: a storage (or other) error was
raised inside the `try` block and caught at the bottom of
`authorize`. -/
inductive AuthResult : Type
  | invalidInput
  | rateLimited
  | accountLocked
  | userNotFound
  | wrongPassword
  | storeThrown
  | success (u : SessionUser)
deriving DecidableEq, Repr

/-- The shared mutable state one `authorize` call touches: the
rate-limit entry for the request's source key and the user row for the
request's normalized email. -/
structure AuthState : Type where
  rate : Option RateEntry
  acct : Option UserRec
deriving DecidableEq, Repr

/-- The body of the `authorize` callback from `lib/auth.ts`, returning
which exit was taken, the state after the call, and the artificial
delay (ms) performed.  In source order: `LoginSchema.safeParse`, then
`checkRateLimit`, then `isAccountLocked`, then the user lookup (absent
user: 100 ms `setTimeout` then `null`), then `bcrypt.compare`
(modelled by the parameter `verify`), then `handleFailedLogin` or
`handleSuccessfulLogin`.  `storeFailing` models the storage layer
being unavailable: the first database access — the lookup inside
`isAccountLocked` — throws, which the `catch` at the bottom of
`authorize` turns into a `null` return. -/
def authorizeBody (emailOk : String → Bool) (verify : String → String → Bool)
    (email password : String) (now : Nat) (st : AuthState)
    (storeFailing : Bool) : AuthResult × AuthState × Nat :=
  if loginSchemaSuccess emailOk email password = false then
    (.invalidInput, st, 0)
  else
    match checkRateLimit now st.rate with
    | (false, rate2) => (.rateLimited, { st with rate := rate2 }, 0)
    | (true, rate2) =>
      if storeFailing then
        (.storeThrown, { st with rate := rate2 }, 0)
      else
        match isAccountLocked now st.acct with
        | (true, acct2) => (.accountLocked, ⟨rate2, acct2⟩, 0)
        | (false, acct2) =>
          match acct2 with
          | none => (.userNotFound, ⟨rate2, none⟩, 100)
          | some u =>
            if verify password u.passwordHash then
              (.success ⟨u.id, u.email, u.name, u.role⟩,
                ⟨rate2, handleSuccessfulLogin now (some u)⟩, 0)
            else
              (.wrongPassword, ⟨rate2, handleFailedLogin now (some u)⟩, 0)

/-- The value the `authorize` callback hands to NextAuth: the user
object on success and `null` (`none`) on every other exit, the caught
error included. -/
def returnedUser : AuthResult → Option SessionUser
  | .success u => some u
  | _ => none

/-- The `authorize` callback as its caller sees it: the returned value
(user object or `null`), the state after the call, and the artificial
delay performed. -/
def authorize (emailOk : String → Bool) (verify : String → String → Bool)
    (email password : String) (now : Nat) (st : AuthState)
    (storeFailing : Bool) : Option SessionUser × AuthState × Nat :=
  let r := authorizeBody emailOk verify email password now st storeFailing
  (returnedUser r.1, r.2)

/-- `authOptions.session.maxAge` from `lib/auth.ts`: `24 * 60 * 60`. -/
def sessionMaxAge : Nat := 24 * 60 * 60

/-- `authOptions.session.updateAge` from `lib/auth.ts`: `60 * 60`. -/
def sessionUpdateAge : Nat := 60 * 60

/-- `authOptions.jwt.maxAge` from `lib/auth.ts`: `24 * 60 * 60`. -/
def jwtMaxAge : Nat := 24 * 60 * 60

/-- Modelled from the spec: the session-claim expiry rule
(`expires-at = issued-at + session lifetime`) is carried out by the
NextAuth library from `authOptions.session.maxAge`; the library itself
is not part of this repository, so only the rule is modelled, with the
configured lifetime taken from the source. -/
def claimExpiresAt (issuedAt : Nat) : Nat := issuedAt + sessionMaxAge

/-- `hasRoleOrHigher`'s `roleHierarchy` rank table from
`lib/auth-utils.ts`: `EMPLOYEE: 1, ADMIN: 2, ROOT_ADMIN: 3`. -/
def roleHierarchy : UserRole → Nat
  | .EMPLOYEE => 1
  | .ADMIN => 2
  | .ROOT_ADMIN => 3

/-- `hasRoleOrHigher(userRole, requiredRole)` from `lib/auth-utils.ts`:
`roleHierarchy[userRole] >= roleHierarchy[requiredRole]`. -/
def hasRoleOrHigher (userRole requiredRole : UserRole) : Bool :=
  Nat.ble (roleHierarchy requiredRole) (roleHierarchy userRole)

/-- The capability record returned by `getUserPermissions` in
`lib/auth-utils.ts`. -/
structure Permissions : Type where
  canViewDashboard : Bool
  canAccessProjects : Bool
  canCreateProjects : Bool
  canManageUsers : Bool
  canAccessSystemSettings : Bool
  canDeleteProjects : Bool
deriving DecidableEq, Repr

/-- `basePermissions` from `getUserPermissions` in `lib/auth-utils.ts`. -/
def basePermissions : Permissions :=
  { canViewDashboard := true
    canAccessProjects := false
    canCreateProjects := false
    canManageUsers := false
    canAccessSystemSettings := false
    canDeleteProjects := false }

/-- `getUserPermissions(role)` from `lib/auth-utils.ts`. -/
def getUserPermissions : UserRole → Permissions
  | .ROOT_ADMIN =>
    { basePermissions with
      canAccessProjects := true
      canCreateProjects := true
      canManageUsers := true
      canAccessSystemSettings := true
      canDeleteProjects := true }
  | .ADMIN =>
    { basePermissions with
      canAccessProjects := true
      canCreateProjects := true
      canManageUsers := true
      canDeleteProjects := true }
  | .EMPLOYEE =>
    { basePermissions with canAccessProjects := true }

/-- Pointwise implication of capability records: every capability
granted by `p` is also granted by `q`. -/
def permLe (p q : Permissions) : Bool :=
  (!p.canViewDashboard || q.canViewDashboard) &&
  (!p.canAccessProjects || q.canAccessProjects) &&
  (!p.canCreateProjects || q.canCreateProjects) &&
  (!p.canManageUsers || q.canManageUsers) &&
  (!p.canAccessSystemSettings || q.canAccessSystemSettings) &&
  (!p.canDeleteProjects || q.canDeleteProjects)

/-- A sequence of `checkRateLimit` calls at the given instants against
one store key, threading the entry; returns the list of
admit/deny decisions and the final entry. -/
def rateRunT : List Nat → Option RateEntry → List Bool × Option RateEntry
  | [], st => ([], st)
  | t :: ts, st =>
    let r := checkRateLimit t st
    let rest := rateRunT ts r.2
    (r.1 :: rest.1, rest.2)

/-- A sequence of `handleFailedLogin` calls at the given instants
against one account row. -/
def failRun (ts : List Nat) (u : Option UserRec) : Option UserRec :=
  ts.foldl (fun acc t => handleFailedLogin t acc) u

/-- The Account invariant: `lockedUntil` is non-null only while
`failedLoginAttempts` is at or above the lockout threshold. -/
def accountInv (u : UserRec) : Bool :=
  !u.lockedUntil.isSome ||
    Nat.ble ACCOUNT_LOCKOUT_MAX_ATTEMPTS u.failedLoginAttempts

/-- The Account invariant lifted to an optional row. -/
def accountInvO : Option UserRec → Bool
  | none => true
  | some u => accountInv u

/-- Whether an `authorize` exit is the success exit. -/
def isSuccess : AuthResult → Bool
  | .success _ => true
  | _ => false

/-! ### Lemmas about `checkRateLimit` -/

theorem checkRateLimit_deny (now : Nat) (e : RateEntry)
    (h1 : now ≤ e.resetTime)
    (h2 : ACCOUNT_LOCKOUT_RATE_LIMIT_MAX_ATTEMPTS ≤ e.attempts) :
    checkRateLimit now (some e) = (false, some e) := by
  simp only [checkRateLimit]
  rw [if_neg (by omega), if_pos h2]

theorem checkRateLimit_incr (now : Nat) (e : RateEntry)
    (h1 : now ≤ e.resetTime)
    (h2 : e.attempts < ACCOUNT_LOCKOUT_RATE_LIMIT_MAX_ATTEMPTS) :
    checkRateLimit now (some e) = (true, some ⟨e.attempts + 1, e.resetTime⟩) := by
  simp only [checkRateLimit]
  rw [if_neg (by omega), if_neg (by omega)]

theorem checkRateLimit_fresh (now : Nat) (e : RateEntry)
    (h : e.resetTime < now) :
    checkRateLimit now (some e)
      = (true,
         some ⟨1, now + ACCOUNT_LOCKOUT_RATE_LIMIT_WINDOW_MINUTES * 60 * 1000⟩) := by
  simp only [checkRateLimit]
  rw [if_pos h]

theorem rateRunT_fst_cons (t : Nat) (ts : List Nat) (st : Option RateEntry) :
    (rateRunT (t :: ts) st).1
      = (checkRateLimit t st).1 :: (rateRunT ts (checkRateLimit t st).2).1 := rfl

theorem rateRunT_in_window (ts : List Nat) (a r : Nat)
    (h : ∀ t ∈ ts, t ≤ r) :
    (rateRunT ts (some ⟨a, r⟩)).1
      = (List.range ts.length).map
          (fun i => decide (a + i < ACCOUNT_LOCKOUT_RATE_LIMIT_MAX_ATTEMPTS)) := by
  induction ts generalizing a with
  | nil => rfl
  | cons t ts ih =>
    have ht : t ≤ r := h t (List.mem_cons_self t ts)
    have hts : ∀ s ∈ ts, s ≤ r := fun s hs => h s (List.mem_cons_of_mem t hs)
    rw [rateRunT_fst_cons, List.length_cons, List.range_succ_eq_map,
      List.map_cons, List.map_map]
    by_cases ha : ACCOUNT_LOCKOUT_RATE_LIMIT_MAX_ATTEMPTS ≤ a
    · rw [checkRateLimit_deny t ⟨a, r⟩ ht ha]
      simp only [ih a hts]
      refine List.cons_eq_cons.mpr ⟨?_, ?_⟩
      · have hd : ¬ (a + 0 < ACCOUNT_LOCKOUT_RATE_LIMIT_MAX_ATTEMPTS) := by omega
        simp [hd]
        omega
      · refine (List.map_congr_left fun i _ => ?_).symm
        simp only [Function.comp_apply]
        refine decide_eq_decide.mpr ?_
        constructor <;> intro hx <;> omega
    · rw [checkRateLimit_incr t ⟨a, r⟩ ht
        (show a < ACCOUNT_LOCKOUT_RATE_LIMIT_MAX_ATTEMPTS by omega)]
      simp only [ih (a + 1) hts]
      refine List.cons_eq_cons.mpr ⟨?_, ?_⟩
      · have hd : a + 0 < ACCOUNT_LOCKOUT_RATE_LIMIT_MAX_ATTEMPTS := by omega
        simp [hd]
        omega
      · refine (List.map_congr_left fun i _ => ?_).symm
        simp only [Function.comp_apply]
        refine decide_eq_decide.mpr ?_
        constructor <;> intro hx <;> omega

/-- Claim C3: for every source key, within a single rate window
`checkRateLimit` admits exactly the first
`RATE_LIMIT_MAX_ATTEMPTS = 5` calls and denies every subsequent call
in that window; a denied call leaves the stored attempt count and
window-reset instant unchanged; and the first call whose time is past
the stored reset instant installs a fresh window with count 1 and is
admitted. -/
theorem C3_rate_limiter_window (t0 : Nat) (ts : List Nat) (now2 : Nat)
    (e : RateEntry) :
    ((∀ t ∈ ts,
        t ≤ t0 + ACCOUNT_LOCKOUT_RATE_LIMIT_WINDOW_MINUTES * 60 * 1000) →
      (rateRunT (t0 :: ts) none).1
        = (List.range (ts.length + 1)).map
            (fun i => decide (i < ACCOUNT_LOCKOUT_RATE_LIMIT_MAX_ATTEMPTS)))
    ∧ (now2 ≤ e.resetTime →
        ACCOUNT_LOCKOUT_RATE_LIMIT_MAX_ATTEMPTS ≤ e.attempts →
        checkRateLimit now2 (some e) = (false, some e))
    ∧ (e.resetTime < now2 →
        checkRateLimit now2 (some e)
          = (true,
             some ⟨1, now2 + ACCOUNT_LOCKOUT_RATE_LIMIT_WINDOW_MINUTES * 60 * 1000⟩)) := by
  refine ⟨?_, checkRateLimit_deny now2 e, checkRateLimit_fresh now2 e⟩
  intro hin
  have h1 : (rateRunT (t0 :: ts) none).1
      = true :: (rateRunT ts
          (some ⟨1, t0 + ACCOUNT_LOCKOUT_RATE_LIMIT_WINDOW_MINUTES * 60 * 1000⟩)).1 := rfl
  rw [h1, rateRunT_in_window ts 1
      (t0 + ACCOUNT_LOCKOUT_RATE_LIMIT_WINDOW_MINUTES * 60 * 1000) hin,
    List.range_succ_eq_map, List.map_cons, List.map_map]
  refine List.cons_eq_cons.mpr ⟨?_, ?_⟩
  · decide
  · refine (List.map_congr_left fun i _ => ?_).symm
    simp only [Function.comp_apply]
    refine decide_eq_decide.mpr ?_
    constructor <;> intro hx <;> omega

/-- Concrete instance of `C3_rate_limiter_window`: seven calls at
times 0..6 from a fresh store admit the first five and deny the rest;
a denied call at a full window leaves the entry unchanged; a call past
the reset instant reinstalls the window. -/
theorem C3_rate_limiter_window_witness :
    (rateRunT [0, 1, 2, 3, 4, 5, 6] none).1
      = [true, true, true, true, true, false, false]
    ∧ checkRateLimit 100 (some ⟨5, 300⟩) = (false, some ⟨5, 300⟩)
    ∧ checkRateLimit 301 (some ⟨5, 300⟩) = (true, some ⟨1, 300301⟩) := by
  refine ⟨?_, ?_, ?_⟩
  · exact ((C3_rate_limiter_window 0 [1, 2, 3, 4, 5, 6] 0 ⟨0, 0⟩).1
      (by decide)).trans (by decide)
  · exact (C3_rate_limiter_window 0 [] 100 ⟨5, 300⟩).2.1 (by decide) (by decide)
  · exact ((C3_rate_limiter_window 0 [] 301 ⟨5, 300⟩).2.2 (by decide)).trans
      (by decide)

/-! ### Lemmas about the lockout tracker -/

theorem handleFailedLogin_below (now : Nat) (u : UserRec)
    (h : u.failedLoginAttempts + 1 < ACCOUNT_LOCKOUT_MAX_ATTEMPTS) :
    handleFailedLogin now (some u)
      = some { u with
          failedLoginAttempts := u.failedLoginAttempts + 1
          lockedUntil := none } := by
  simp only [handleFailedLogin]
  rw [if_neg (by omega)]

theorem handleFailedLogin_lock (now : Nat) (u : UserRec)
    (h : ACCOUNT_LOCKOUT_MAX_ATTEMPTS ≤ u.failedLoginAttempts + 1) :
    handleFailedLogin now (some u)
      = some { u with
          failedLoginAttempts := u.failedLoginAttempts + 1
          lockedUntil := some (now +
            ACCOUNT_LOCKOUT_LOCKOUT_DURATION_HOURS * 60 * 60 * 1000) } := by
  simp only [handleFailedLogin]
  rw [if_pos h]

theorem failRun_cons (t : Nat) (ts : List Nat) (u : Option UserRec) :
    failRun (t :: ts) u = failRun ts (handleFailedLogin t u) := rfl

theorem failRun_below (ts : List Nat) (u : UserRec)
    (h : u.failedLoginAttempts + ts.length < ACCOUNT_LOCKOUT_MAX_ATTEMPTS) :
    failRun ts (some u)
      = some { u with
          failedLoginAttempts := u.failedLoginAttempts + ts.length
          lockedUntil := if ts.length = 0 then u.lockedUntil else none } := by
  induction ts generalizing u with
  | nil => rfl
  | cons t ts ih =>
    have h1 : u.failedLoginAttempts + 1 < ACCOUNT_LOCKOUT_MAX_ATTEMPTS := by
      simp only [List.length_cons] at h; omega
    have h2 : u.failedLoginAttempts + 1 + ts.length
        < ACCOUNT_LOCKOUT_MAX_ATTEMPTS := by
      simp only [List.length_cons] at h; omega
    rw [failRun_cons, handleFailedLogin_below t u h1,
      ih { u with
        failedLoginAttempts := u.failedLoginAttempts + 1
        lockedUntil := none } h2]
    simp [List.length_cons]
    omega

/-- Claim C4: starting from an unlocked account with failed-attempt
counter 0, after exactly `MAX_ATTEMPTS - 1 = 9` consecutive
`handleFailedLogin` calls the account is not locked; the 10th failure
at time `t10` produces counter 10 and `lockedUntil = t10 + 1 hour`,
and `isAccountLocked` then reports locked exactly while the current
time is before that instant. -/
theorem C4_lockout_threshold (u0 : UserRec) (ts : List Nat) (t10 : Nat)
    (h0 : u0.failedLoginAttempts = 0) (hlk : u0.lockedUntil = none)
    (hlen : ts.length = 9) :
    (∀ s, (isAccountLocked s (failRun ts (some u0))).1 = false)
    ∧ failRun (ts ++ [t10]) (some u0)
        = some { u0 with
            failedLoginAttempts := ACCOUNT_LOCKOUT_MAX_ATTEMPTS
            lockedUntil := some (t10 +
              ACCOUNT_LOCKOUT_LOCKOUT_DURATION_HOURS * 60 * 60 * 1000) }
    ∧ ∀ s, (isAccountLocked s (failRun (ts ++ [t10]) (some u0))).1
        = decide (s < t10 +
            ACCOUNT_LOCKOUT_LOCKOUT_DURATION_HOURS * 60 * 60 * 1000) := by
  have h9 : u0.failedLoginAttempts + ts.length
      < ACCOUNT_LOCKOUT_MAX_ATTEMPTS := by
    rw [h0, hlen]; decide
  have hu9 : failRun ts (some u0)
      = some { u0 with failedLoginAttempts := 9, lockedUntil := none } := by
    rw [failRun_below ts u0 h9, hlen, h0]
    rfl
  have happ : failRun (ts ++ [t10]) (some u0)
      = handleFailedLogin t10 (failRun ts (some u0)) := by
    simp only [failRun, List.foldl_append, List.foldl_cons, List.foldl_nil]
  have hu10 : failRun (ts ++ [t10]) (some u0)
      = some { u0 with
          failedLoginAttempts := ACCOUNT_LOCKOUT_MAX_ATTEMPTS
          lockedUntil := some (t10 +
            ACCOUNT_LOCKOUT_LOCKOUT_DURATION_HOURS * 60 * 60 * 1000) } := by
    rw [happ, hu9, handleFailedLogin_lock t10
      { u0 with failedLoginAttempts := 9, lockedUntil := none }
      (show ACCOUNT_LOCKOUT_MAX_ATTEMPTS ≤ 9 + 1 by decide)]
    rfl
  refine ⟨?_, hu10, ?_⟩
  · intro s
    rw [hu9]
    rfl
  · intro s
    rw [hu10]
    by_cases hc : s < t10 + ACCOUNT_LOCKOUT_LOCKOUT_DURATION_HOURS * 60 * 60 * 1000
    · simp [isAccountLocked, hc]
    · simp [isAccountLocked, hc]

/-- Concrete instance of `C4_lockout_threshold`: nine failures leave
the sample account unlocked; the tenth failure at time 10 locks it,
with the lock reported until (and not at) time 3600010. -/
theorem C4_lockout_threshold_witness :
    (isAccountLocked 500 (failRun [1, 2, 3, 4, 5, 6, 7, 8, 9]
        (some ⟨"i", "e@x.com", "h", "n", .EMPLOYEE, 0, none, none⟩))).1 = false
    ∧ failRun [1, 2, 3, 4, 5, 6, 7, 8, 9, 10]
        (some ⟨"i", "e@x.com", "h", "n", .EMPLOYEE, 0, none, none⟩)
        = some ⟨"i", "e@x.com", "h", "n", .EMPLOYEE, 10, some 3600010, none⟩
    ∧ (isAccountLocked 1000 (failRun [1, 2, 3, 4, 5, 6, 7, 8, 9, 10]
        (some ⟨"i", "e@x.com", "h", "n", .EMPLOYEE, 0, none, none⟩))).1 = true
    ∧ (isAccountLocked 3600010 (failRun [1, 2, 3, 4, 5, 6, 7, 8, 9, 10]
        (some ⟨"i", "e@x.com", "h", "n", .EMPLOYEE, 0, none, none⟩))).1 = false := by
  have h := C4_lockout_threshold
    ⟨"i", "e@x.com", "h", "n", .EMPLOYEE, 0, none, none⟩
    [1, 2, 3, 4, 5, 6, 7, 8, 9] 10 rfl rfl rfl
  exact ⟨h.1 500, h.2.1.trans (by decide), (h.2.2 1000).trans (by decide),
    (h.2.2 3600010).trans (by decide)⟩

/-- Claim C5: the Account invariant — `lockedUntil` non-null only
while the failed-attempt counter is at or above the threshold 10 — is
preserved by `isAccountLocked`'s lazy expiry, by `handleFailedLogin`
and by `handleSuccessfulLogin`; observing an expired lockout resets
the counter to 0 and clears `lockedUntil`, and a successful login
resets the counter to 0 and clears `lockedUntil`. -/
theorem C5_account_invariant (now : Nat) (u : UserRec)
    (h : accountInv u = true) :
    accountInvO (isAccountLocked now (some u)).2 = true
    ∧ accountInvO (handleFailedLogin now (some u)) = true
    ∧ accountInvO (handleSuccessfulLogin now (some u)) = true
    ∧ (∀ t, u.lockedUntil = some t → t ≤ now →
        (isAccountLocked now (some u)).2
          = some { u with failedLoginAttempts := 0, lockedUntil := none })
    ∧ handleSuccessfulLogin now (some u)
        = some { u with
            failedLoginAttempts := 0
            lockedUntil := none
            lastLogin := some now } := by
  refine ⟨?_, ?_, ?_, ?_, ?_⟩
  · rcases hl : u.lockedUntil with _ | t
    · simpa [isAccountLocked, hl, accountInvO] using h
    · by_cases hc : now < t
      · simpa [isAccountLocked, hl, hc, accountInvO] using h
      · simp [isAccountLocked, hl, hc, accountInvO, accountInv]
  · by_cases h10 :
        ACCOUNT_LOCKOUT_MAX_ATTEMPTS ≤ u.failedLoginAttempts + 1
    · simp [handleFailedLogin, accountInvO, accountInv, h10]
    · simp [handleFailedLogin, accountInvO, accountInv, h10]
  · simp [handleSuccessfulLogin, accountInvO, accountInv]
  · intro t hl hc
    simp [isAccountLocked, hl, show ¬ now < t by omega]
  · rfl

/-- Concrete instance of `C5_account_invariant`: a locked sample row
(counter 10, lock expiring at 100) keeps the invariant through all
three operations at time 100, the expired lock observation resets it,
and a successful login resets it. -/
theorem C5_account_invariant_witness :
    accountInvO (isAccountLocked 100 (some
      ⟨"i", "e@x.com", "h", "n", .EMPLOYEE, 10, some 100, none⟩)).2 = true
    ∧ accountInvO (handleFailedLogin 100 (some
      ⟨"i", "e@x.com", "h", "n", .EMPLOYEE, 10, some 100, none⟩)) = true
    ∧ accountInvO (handleSuccessfulLogin 100 (some
      ⟨"i", "e@x.com", "h", "n", .EMPLOYEE, 10, some 100, none⟩)) = true
    ∧ (isAccountLocked 100 (some
        ⟨"i", "e@x.com", "h", "n", .EMPLOYEE, 10, some 100, none⟩)).2
      = some ⟨"i", "e@x.com", "h", "n", .EMPLOYEE, 0, none, none⟩
    ∧ handleSuccessfulLogin 100 (some
        ⟨"i", "e@x.com", "h", "n", .EMPLOYEE, 10, some 100, none⟩)
      = some ⟨"i", "e@x.com", "h", "n", .EMPLOYEE, 0, none, some 100⟩ := by
  have h := C5_account_invariant 100
    ⟨"i", "e@x.com", "h", "n", .EMPLOYEE, 10, some 100, none⟩ (by decide)
  exact ⟨h.1, h.2.1, h.2.2.1,
    (h.2.2.2.1 100 rfl (by decide)).trans (by decide),
    h.2.2.2.2.trans (by decide)⟩

/-- Claim C8 as stated is false on the code: the session update age is
`60 * 60` (one hour), not half of the 24-hour session lifetime. -/
theorem C8_refresh_half_life_false :
    sessionMaxAge = 24 * 60 * 60
    ∧ sessionUpdateAge = 60 * 60
    ∧ ¬ sessionUpdateAge = sessionMaxAge / 2 := by decide

/-- Claim C8, amended: a session claim expires at issued-at plus the
configured lifetime of 24 hours (and the JWT lifetime agrees), but the
session update age is one hour — 1/24 of the lifetime, not half of
it. -/
theorem C8_session_config (issuedAt : Nat) :
    claimExpiresAt issuedAt = issuedAt + 24 * 60 * 60
    ∧ jwtMaxAge = sessionMaxAge
    ∧ sessionUpdateAge = 60 * 60
    ∧ sessionUpdateAge * 24 = sessionMaxAge :=
  ⟨rfl, rfl, rfl, rfl⟩

/-- Claim C9: `hasRoleOrHigher actual required` holds exactly when the
rank of `actual` is at least the rank of `required` under
EMPLOYEE = 1, ADMIN = 2, ROOT_ADMIN = 3; in particular ROOT_ADMIN
clears the ADMIN bar, EMPLOYEE does not, and every role clears its
own bar. -/
theorem C9_role_hierarchy (a b : UserRole) :
    hasRoleOrHigher a b = decide (roleHierarchy b ≤ roleHierarchy a)
    ∧ hasRoleOrHigher UserRole.ROOT_ADMIN UserRole.ADMIN = true
    ∧ hasRoleOrHigher UserRole.EMPLOYEE UserRole.ADMIN = false
    ∧ hasRoleOrHigher a a = true := by
  cases a <;> cases b <;> decide

/-- Claim C10: the capability table is monotone along the role
hierarchy — whenever `hasRoleOrHigher r1 r2`, every capability granted
to `r2` is granted to `r1` — and `canViewDashboard` is granted to
every role. -/
theorem C10_permission_monotone (r1 r2 : UserRole)
    (h : hasRoleOrHigher r1 r2 = true) :
    permLe (getUserPermissions r2) (getUserPermissions r1) = true
    ∧ (getUserPermissions r1).canViewDashboard = true := by
  revert h
  cases r1 <;> cases r2 <;> decide

/-- Concrete instance of `C10_permission_monotone` at
`ROOT_ADMIN ≥ ADMIN`. -/
theorem C10_permission_monotone_witness :
    permLe (getUserPermissions UserRole.ADMIN)
        (getUserPermissions UserRole.ROOT_ADMIN) = true
    ∧ (getUserPermissions UserRole.ROOT_ADMIN).canViewDashboard = true :=
  C10_permission_monotone UserRole.ROOT_ADMIN UserRole.ADMIN (by decide)

/-! ### The authorize pipeline -/

/-- Claim C1 as stated is false on the code: `authorize` runs
`LoginSchema.safeParse` before `checkRateLimit`, so a request with an
empty password is rejected as invalid input while the rate-limit store
entry for its source stays `none` — no attempt is consumed (had the
rate-limit check run first, the entry would have been installed with
one attempt). -/
theorem C1_rate_before_validation_false :
    authorizeBody (fun _ => true) (fun _ _ => false) "user@example.com" ""
        0 ⟨none, none⟩ false
      = (.invalidInput, ⟨none, none⟩, 0)
    ∧ (authorizeBody (fun _ => true) (fun _ _ => false) "user@example.com" ""
        0 ⟨none, none⟩ false).2.1.rate = none := by decide

/-- Claim C1, amended: input-shape validation is performed before the
per-source rate-limit check, so a request that fails validation is
rejected as invalid input with the whole state — the rate window for
its source included — left unchanged, consuming no attempt. -/
theorem C1_validation_before_rate (emailOk : String → Bool)
    (verify : String → String → Bool) (email password : String)
    (now : Nat) (st : AuthState) (storeFailing : Bool)
    (h : loginSchemaSuccess emailOk email password = false) :
    authorizeBody emailOk verify email password now st storeFailing
      = (.invalidInput, st, 0)
    ∧ (authorize emailOk verify email password now st storeFailing).1
      = none := by
  have hbody : authorizeBody emailOk verify email password now st storeFailing
      = (.invalidInput, st, 0) := by
    simp [authorizeBody, h]
  exact ⟨hbody, by simp [authorize, hbody, returnedUser]⟩

/-- Concrete instance of `C1_validation_before_rate`: an empty
password fails validation and the state is untouched. -/
theorem C1_validation_before_rate_witness :
    authorizeBody (fun _ => true) (fun _ _ => false) "a@b.com" "" 5
        ⟨some ⟨2, 400000⟩, none⟩ false
      = (.invalidInput, ⟨some ⟨2, 400000⟩, none⟩, 0)
    ∧ (authorize (fun _ => true) (fun _ _ => false) "a@b.com" "" 5
        ⟨some ⟨2, 400000⟩, none⟩ false).1 = none :=
  C1_validation_before_rate (fun _ => true) (fun _ _ => false) "a@b.com" "" 5
    ⟨some ⟨2, 400000⟩, none⟩ false (by decide)

/-- Claim C2 as stated is false on the code: every failure exit of
`authorize` returns the same `null`, and a storage failure is caught
by the `try`/`catch` and also returned as `null` — here the
storage-failure call and the invalid-input, rate-limited and
wrong-password calls all hand NextAuth the identical value `none`, so
no distinct `StoreUnavailable` fault propagates and the failure kinds
are not distinguishable to the caller. -/
theorem C2_distinct_failures_false :
    (authorizeBody (fun _ => true) (fun _ _ => true) "a@b.com" "pw" 0
        ⟨none, none⟩ true).1 = .storeThrown
    ∧ (authorize (fun _ => true) (fun _ _ => true) "a@b.com" "pw" 0
        ⟨none, none⟩ true).1 = none
    ∧ (authorize (fun _ => true) (fun _ _ => true) "a@b.com" "" 0
        ⟨none, none⟩ false).1 = none
    ∧ (authorize (fun _ => true) (fun _ _ => true) "a@b.com" "pw" 0
        ⟨some ⟨5, 300000⟩, none⟩ false).1 = none
    ∧ (authorize (fun _ => true) (fun _ _ => false) "a@b.com" "pw" 0
        ⟨none, some ⟨"i", "a@b.com", "h", "n", .EMPLOYEE, 0, none, none⟩⟩
        false).1 = none := by decide

/-- Claim C2, amended: `authorize` signals every failure condition —
invalid input, rate-limited, locked account, unknown email, wrong
password — by the same return value `null`, so they are
indistinguishable to the caller; and with the storage layer
unavailable the error is caught inside `authorize` and likewise
surfaced as `null`, never as a distinct propagated fault. -/
theorem C2_failures_collapse_to_null (emailOk : String → Bool)
    (verify : String → String → Bool) (email password : String)
    (now : Nat) (st : AuthState) (storeFailing : Bool)
    (h : isSuccess
        (authorizeBody emailOk verify email password now st storeFailing).1
      = false) :
    (authorize emailOk verify email password now st storeFailing).1 = none
    ∧ (authorize emailOk verify email password now st true).1 = none := by
  constructor
  · rcases hr : (authorizeBody emailOk verify email password now st
        storeFailing).1 with _ | _ | _ | _ | _ | _ | u
    case success => rw [hr] at h; simp [isSuccess] at h
    all_goals simp [authorize, hr, returnedUser]
  · rcases hr : (authorizeBody emailOk verify email password now st true).1
      with _ | _ | _ | _ | _ | _ | u
    case success =>
      exfalso
      revert hr
      simp only [authorizeBody]
      by_cases hv : loginSchemaSuccess emailOk email password = false
      · simp [hv]
      · simp only [hv, if_false]
        rcases checkRateLimit now st.rate with ⟨b, rate2⟩
        cases b <;> simp
    all_goals simp [authorize, hr, returnedUser]

/-- Concrete instance of `C2_failures_collapse_to_null`: an
unknown-email failure and a storage failure both surface as `none`. -/
theorem C2_failures_collapse_to_null_witness :
    (authorize (fun _ => true) (fun _ _ => false) "w@x.com" "pw" 3
        ⟨none, none⟩ false).1 = none
    ∧ (authorize (fun _ => true) (fun _ _ => false) "w@x.com" "pw" 3
        ⟨none, none⟩ true).1 = none :=
  C2_failures_collapse_to_null (fun _ => true) (fun _ _ => false) "w@x.com"
    "pw" 3 ⟨none, none⟩ false (by decide)

/-- Claim C6: when validation passes, the source is within its rate
budget and the stored row is locked with `lockedUntil` still in the
future, `authorize` exits at the locked-account check: the result does
not depend on the password-hash comparison function (no comparison is
performed), the row — its failed-attempt counter included — is
unchanged, and the caller sees `null`. -/
theorem C6_locked_account_short_circuit (emailOk : String → Bool)
    (v1 v2 : String → String → Bool) (email password : String)
    (now : Nat) (st : AuthState) (u : UserRec) (t : Nat)
    (hv : loginSchemaSuccess emailOk email password = true)
    (hr : (checkRateLimit now st.rate).1 = true)
    (hu : st.acct = some u) (hl : u.lockedUntil = some t) (hnow : now < t) :
    authorizeBody emailOk v1 email password now st false
      = (.accountLocked, ⟨(checkRateLimit now st.rate).2, some u⟩, 0)
    ∧ authorizeBody emailOk v1 email password now st false
        = authorizeBody emailOk v2 email password now st false
    ∧ (authorize emailOk v1 email password now st false).1 = none := by
  have hlock : isAccountLocked now st.acct = (true, some u) := by
    simp [isAccountLocked, hu, hl, hnow]
  have hbody : ∀ v : String → String → Bool,
      authorizeBody emailOk v email password now st false
        = (.accountLocked, ⟨(checkRateLimit now st.rate).2, some u⟩, 0) := by
    intro v
    rcases hcl : checkRateLimit now st.rate with ⟨b, rate2⟩
    rw [hcl] at hr
    subst hr
    simp [authorizeBody, hv, hcl, hlock]
  exact ⟨hbody v1, (hbody v1).trans (hbody v2).symm,
    by simp [authorize, hbody v1, returnedUser]⟩

/-- Concrete instance of `C6_locked_account_short_circuit`: a row
locked until time 100, probed at time 50 with two contradictory
comparison functions, exits as locked either way with the row
untouched and `null` returned. -/
theorem C6_locked_account_short_circuit_witness :
    authorizeBody (fun _ => true) (fun _ _ => true) "e@x.com" "pw" 50
        ⟨none, some ⟨"i", "e@x.com", "h", "n", .EMPLOYEE, 3, some 100, none⟩⟩
        false
      = (.accountLocked,
         ⟨some ⟨1, 300050⟩,
          some ⟨"i", "e@x.com", "h", "n", .EMPLOYEE, 3, some 100, none⟩⟩, 0)
    ∧ authorizeBody (fun _ => true) (fun _ _ => true) "e@x.com" "pw" 50
        ⟨none, some ⟨"i", "e@x.com", "h", "n", .EMPLOYEE, 3, some 100, none⟩⟩
        false
      = authorizeBody (fun _ => true) (fun _ _ => false) "e@x.com" "pw" 50
          ⟨none, some ⟨"i", "e@x.com", "h", "n", .EMPLOYEE, 3, some 100, none⟩⟩
          false
    ∧ (authorize (fun _ => true) (fun _ _ => true) "e@x.com" "pw" 50
        ⟨none, some ⟨"i", "e@x.com", "h", "n", .EMPLOYEE, 3, some 100, none⟩⟩
        false).1 = none := by
  have h := C6_locked_account_short_circuit (fun _ => true)
    (fun _ _ => true) (fun _ _ => false) "e@x.com" "pw" 50
    ⟨none, some ⟨"i", "e@x.com", "h", "n", .EMPLOYEE, 3, some 100, none⟩⟩
    ⟨"i", "e@x.com", "h", "n", .EMPLOYEE, 3, some 100, none⟩ 100
    (by decide) (by decide) rfl rfl (by decide)
  exact ⟨h.1.trans (by decide), h.2.1, h.2.2⟩

/-- Claim C7: when validation passes, the source is within its rate
budget and no row exists for the supplied email, `authorize` performs
the fixed 100 ms artificial delay and hands the caller `null`; the
account store is left with no row (nothing is created or mutated);
`handleFailedLogin` is a no-op when the user is absent; and the
caller-visible value is identical to that of a wrong password on an
existing unlocked account. -/
theorem C7_unknown_email (emailOk : String → Bool)
    (verify : String → String → Bool) (email password : String)
    (now : Nat) (st : AuthState)
    (hv : loginSchemaSuccess emailOk email password = true)
    (hr : (checkRateLimit now st.rate).1 = true)
    (ha : st.acct = none) :
    authorizeBody emailOk verify email password now st false
      = (.userNotFound, ⟨(checkRateLimit now st.rate).2, none⟩, 100)
    ∧ (authorize emailOk verify email password now st false).1 = none
    ∧ (∀ t, handleFailedLogin t none = none)
    ∧ ∀ (st2 : AuthState) (u2 : UserRec), st2.acct = some u2 →
        u2.lockedUntil = none →
        verify password u2.passwordHash = false →
        (checkRateLimit now st2.rate).1 = true →
        (authorize emailOk verify email password now st2 false).1
          = (authorize emailOk verify email password now st false).1 := by
  have hbody : authorizeBody emailOk verify email password now st false
      = (.userNotFound, ⟨(checkRateLimit now st.rate).2, none⟩, 100) := by
    rcases hcl : checkRateLimit now st.rate with ⟨b, rate2⟩
    rw [hcl] at hr
    subst hr
    simp [authorizeBody, hv, hcl, isAccountLocked, ha]
  refine ⟨hbody, by simp [authorize, hbody, returnedUser],
    fun t => rfl, ?_⟩
  intro st2 u2 hu2 hl2 hw2 hr2
  have hbody2 : authorizeBody emailOk verify email password now st2 false
      = (.wrongPassword,
         ⟨(checkRateLimit now st2.rate).2, handleFailedLogin now (some u2)⟩,
         0) := by
    rcases hcl2 : checkRateLimit now st2.rate with ⟨b2, rate3⟩
    rw [hcl2] at hr2
    subst hr2
    have hlock2 : isAccountLocked now st2.acct = (false, some u2) := by
      simp [isAccountLocked, hu2, hl2]
    simp [authorizeBody, hv, hcl2, hlock2, hw2]
  simp [authorize, hbody, hbody2, returnedUser]

/-- Concrete instance of `C7_unknown_email`: an unknown email at time
7 yields the 100 ms delay, `null`, an untouched (absent) row, and the
same visible value as a wrong password against an existing row. -/
theorem C7_unknown_email_witness :
    authorizeBody (fun _ => true) (fun _ _ => false) "g@x.com" "pw" 7
        ⟨none, none⟩ false
      = (.userNotFound, ⟨some ⟨1, 300007⟩, none⟩, 100)
    ∧ (authorize (fun _ => true) (fun _ _ => false) "g@x.com" "pw" 7
        ⟨none, none⟩ false).1 = none
    ∧ handleFailedLogin 7 none = none
    ∧ (authorize (fun _ => true) (fun _ _ => false) "g@x.com" "pw" 7
        ⟨none, some ⟨"i", "g@x.com", "h", "n", .EMPLOYEE, 0, none, none⟩⟩
        false).1
      = (authorize (fun _ => true) (fun _ _ => false) "g@x.com" "pw" 7
          ⟨none, none⟩ false).1 := by
  have h := C7_unknown_email (fun _ => true) (fun _ _ => false) "g@x.com"
    "pw" 7 ⟨none, none⟩ (by decide) (by decide) rfl
  exact ⟨h.1.trans (by decide), h.2.1, h.2.2.1 7,
    h.2.2.2 ⟨none, some ⟨"i", "g@x.com", "h", "n", .EMPLOYEE, 0, none, none⟩⟩
      ⟨"i", "g@x.com", "h", "n", .EMPLOYEE, 0, none, none⟩ rfl rfl rfl
      (by decide)⟩
